import Mathlib

/-!
Verification of the device action orchestration core of the church-tv-controller
repository: the data model (`models.py`), the two protocol controllers
(`adb_controller.py`, `webos_controller.py`) and the protocol-agnostic service
layer with its concurrency-bounded dispatcher (`tv_service.py`).

The controllers talk to the outside world through the collaborator interfaces of
the specification (the external `adb` transport invoker, the pywebostv pairing
transport, the UDP socket used for Wake-on-LAN, the token file).  Each
collaborator is modelled as an uninterpreted oracle packed into an environment
structure; everything the repository code itself does (branching, message
construction, result records, the per-device exception funnel of the
dispatcher) is translated function by function from the source.
-/

namespace ChurchTV

/-! ## models.py

`TVState`, `ActionResult`, `TVConfig`, `TVStatus` from `src/models.py`.
`adb_controller.py` re-declares identical copies of `TVState`, `ActionResult`
and `TVStatus`; the copies are field-for-field identical, so a single Lean type
stands for both. -/

inductive TVState where
  | unknown
  | awake
  | asleep
  | unreachable
deriving DecidableEq, Repr

inductive ActionResult where
  | success
  | failed
  | skipped
deriving DecidableEq, Repr

structure TVConfig where
  name : String
  ip : String
  protocol : String := "adb"
  mac : Option String := none
deriving DecidableEq, Repr

structure TVStatus where
  name : String
  ip : String
  state : TVState
  action_result : Option ActionResult := none
  message : String := ""
deriving DecidableEq, Repr

/-! ## Python string helpers -/

/-- Boolean substring test on character lists: some suffix of the haystack
starts with the needle.  Used to model the Python `in` operator on `str`. -/
def containsSeq (needle : List Char) : List Char → Bool
  | [] => needle.isEmpty
  | c :: rest => needle.isPrefixOf (c :: rest) || containsSeq needle rest

/-- The Python expression `needle in hay` on strings. -/
def pyIn (needle hay : String) : Bool :=
  containsSeq needle.toList hay.toList

/-- The Python expression `s.lower()`, character by character.  All outputs it
is applied to are ASCII, where lowering one character at a time coincides with
the Python semantics. -/
def pyLower (s : String) : String :=
  String.mk (s.toList.map Char.toLower)

/-! ## adb_controller.py (the bridge protocol driver) -/

/-- The transport invoker collaborator of the bridge protocol: `run_adb_command`
wraps `subprocess.run` on the adb binary (plus timeout / missing-binary
handling) and returns `(succeeded, combined output)`; its body only touches the
filesystem and the subprocess module, both outside the core, so the whole
function is modelled as an oracle from the argument list and timeout to the
`(success, output)` pair.  It never raises: every exception path inside it
returns `(False, <message>)`. -/
structure AdbEnv where
  run : List String → Nat → Bool × String

/-- Modelled from the spec: `config.py` (the config provider collaborator, §6)
is not under `src/`; it supplies the default control port `ADB_PORT` imported by
`adb_controller.py`.  The concrete port value only ever appears inside the
address strings handed to the transport oracle, so no claim depends on it; the
customary adb-over-TCP port stands in. -/
def ADB_PORT : Nat := 5555

namespace Adb

/-- `adb_controller.connect_to_tv`: run `adb connect ip:PORT` with a 5 second
timeout; connected iff the command succeeded and its output contains
`connected` (or `already connected`, a redundant second test kept from the
source). -/
def connect_to_tv (env : AdbEnv) (ip : String) : Bool × String :=
  let address := ip ++ ":" ++ toString ADB_PORT
  let r := env.run ["connect", address] 5
  let is_connected :=
    r.1 && (pyIn "connected" (pyLower r.2) || pyIn "already connected" (pyLower r.2))
  (is_connected, r.2)

/-- `adb_controller.get_tv_power_state`: query `dumpsys power` and classify the
output; command failure means `UNREACHABLE`, then `awake` / `asleep` or
`dozing` substrings decide, anything else is `UNKNOWN`. -/
def get_tv_power_state (env : AdbEnv) (ip : String) : TVState :=
  let address := ip ++ ":" ++ toString ADB_PORT
  let r := env.run ["-s", address, "shell", "dumpsys power | grep \x27mWakefulness=\x27"] 5
  if !r.1 then
    TVState.unreachable
  else
    let output_lower := pyLower r.2
    if pyIn "awake" output_lower then TVState.awake
    else if pyIn "asleep" output_lower || pyIn "dozing" output_lower then TVState.asleep
    else TVState.unknown

/-- `adb_controller.send_power_toggle`: the blind power toggle keyevent. -/
def send_power_toggle (env : AdbEnv) (ip : String) : Bool × String :=
  let address := ip ++ ":" ++ toString ADB_PORT
  env.run ["-s", address, "shell", "input keyevent 26"] 5

/-- `adb_controller.check_single_tv` (signature `(name: str, ip: str)`). -/
def check_single_tv (env : AdbEnv) (name ip : String) : TVStatus :=
  let c := connect_to_tv env ip
  if !c.1 then
    ⟨name, ip, TVState.unreachable, none, "Could not connect: " ++ c.2⟩
  else
    ⟨name, ip, get_tv_power_state env ip, none, "Connected"⟩

/-- `adb_controller.turn_on_single_tv` (signature `(name: str, ip: str)`). -/
def turn_on_single_tv (env : AdbEnv) (name ip : String) : TVStatus :=
  let c := connect_to_tv env ip
  if !c.1 then
    ⟨name, ip, TVState.unreachable, some ActionResult.failed, "Could not connect: " ++ c.2⟩
  else
    let current_state := get_tv_power_state env ip
    if current_state = TVState.awake then
      ⟨name, ip, TVState.awake, some ActionResult.skipped, "Already on"⟩
    else if current_state = TVState.unreachable then
      ⟨name, ip, TVState.unreachable, some ActionResult.failed, "Could not read power state"⟩
    else
      let t := send_power_toggle env ip
      if !t.1 then
        ⟨name, ip, current_state, some ActionResult.failed, "Toggle failed: " ++ t.2⟩
      else
        ⟨name, ip, TVState.awake, some ActionResult.success, "Turned on"⟩

/-- `adb_controller.turn_off_single_tv` (signature `(name: str, ip: str)`). -/
def turn_off_single_tv (env : AdbEnv) (name ip : String) : TVStatus :=
  let c := connect_to_tv env ip
  if !c.1 then
    ⟨name, ip, TVState.unreachable, some ActionResult.failed, "Could not connect: " ++ c.2⟩
  else
    let current_state := get_tv_power_state env ip
    if current_state = TVState.asleep then
      ⟨name, ip, TVState.asleep, some ActionResult.skipped, "Already off"⟩
    else if current_state = TVState.unreachable then
      ⟨name, ip, TVState.unreachable, some ActionResult.failed, "Could not read power state"⟩
    else
      let t := send_power_toggle env ip
      if !t.1 then
        ⟨name, ip, current_state, some ActionResult.failed, "Toggle failed: " ++ t.2⟩
      else
        ⟨name, ip, TVState.asleep, some ActionResult.success, "Turned off"⟩

end Adb

/-! ## webos_controller.py (the paired protocol driver) -/

/-- Abstract outcome of one `WebOSClient(ip)` / `client.connect()` /
`client.register(store)` attempt (the paired-protocol transport collaborator):
the register generator yields `PROMPTED` first, yields `REGISTERED` first, ends
without either, or some call in the `try` block raises with message `msg`. -/
inductive RegisterOutcome where
  | prompted
  | registered
  | exhausted
  | exc (msg : String)
deriving DecidableEq, Repr

/-- Oracles for the paired-protocol collaborators of `webos_controller.py`:
the pairing transport (`register`, per host address), the UDP broadcast send of
`send_wol_packet` (`sendMagicPacket`, success of building the socket and
sending the given packet bytes locally — the remote device never answers a WOL
packet and no reply is read), and `SystemControl(client).power_off()`
(`power_off`, `none` on success, `some msg` when it raises with message
`msg`). -/
structure WebosEnv where
  register : String → RegisterOutcome
  sendMagicPacket : List Nat → Bool
  power_off : String → Option String

/-- Result of `webos_controller.connect_to_webos_tv`: the Python pair
`(client | None, message)` plus whether `save_token_for_ip` — the credential
store collaborator — was called during the attempt (the source makes exactly
zero or one such call). -/
structure ConnectResult where
  client : Option Unit
  message : String
  tokenSaved : Bool
deriving DecidableEq, Repr

namespace Webos

/-- `webos_controller.connect_to_webos_tv`: on `PROMPTED` save the token store
and report the prompt message with no client; on `REGISTERED` save and return
the client; a register loop that ends decides `Registration failed`; any
exception is caught and its text returned as the message. -/
def connect_to_webos_tv (env : WebosEnv) (ip : String) : ConnectResult :=
  match env.register ip with
  | RegisterOutcome.prompted => ⟨none, "Accept prompt on TV", true⟩
  | RegisterOutcome.registered => ⟨some (), "Connected", true⟩
  | RegisterOutcome.exhausted => ⟨none, "Registration failed", false⟩
  | RegisterOutcome.exc msg => ⟨none, msg, false⟩

/-- The Python `mac_address.replace(":", "").replace("-", "")`. -/
def stripMacSeparators (mac : String) : String :=
  String.mk (mac.toList.filter (fun c => c != ':' && c != '-'))

/-- Value of one hexadecimal digit, `none` for a non-hex character. -/
def hexDigitVal (c : Char) : Option Nat :=
  if '0' ≤ c ∧ c ≤ '9' then some (c.toNat - 48)
  else if 'a' ≤ c ∧ c ≤ 'f' then some (c.toNat - 87)
  else if 'A' ≤ c ∧ c ≤ 'F' then some (c.toNat - 55)
  else none

/-- `bytes.fromhex`: two hex digits per byte; an odd-length string or a non-hex
character raises `ValueError`, modelled as `none`.  (CPython also skips ASCII
whitespace between bytes; hardware addresses contain none, and the separator
characters `:` and `-` were already removed, so that case is not modelled.) -/
def bytesFromHex : List Char → Option (List Nat)
  | [] => some []
  | [_] => none
  | c1 :: c2 :: rest =>
    match hexDigitVal c1, hexDigitVal c2 with
    | some hi, some lo => (bytesFromHex rest).map (fun bs => (16 * hi + lo) :: bs)
    | _, _ => none

/-- `webos_controller.send_wol_packet`: build
`b"\xff" * 6 + mac_bytes * 16` and broadcast it over an unconnected UDP socket
(`sendto(packet, ("255.255.255.255", 9))` with `SO_BROADCAST`); the whole body
sits in a `try` whose `except` returns `False`, so a `bytes.fromhex` failure or
a local socket failure yields `False` and a completed send yields `True` — no
response from the remote device is ever awaited or read. -/
def send_wol_packet (env : WebosEnv) (mac_address : String) : Bool :=
  match bytesFromHex (stripMacSeparators mac_address).toList with
  | none => false
  | some mac_bytes =>
    env.sendMagicPacket (List.replicate 6 0xff ++ (List.replicate 16 mac_bytes).flatten)

/-- `webos_controller.check_single_tv`: no client and a message containing
`Accept prompt` reports `UNKNOWN` with the message verbatim; any other failed
connect reports `UNREACHABLE`; a live client means the device answered, state
`AWAKE`.  (The `client.disconnect()` in a `try`/`except pass` has no observable
effect on the result and is not modelled.) -/
def check_single_tv (env : WebosEnv) (config : TVConfig) : TVStatus :=
  let c := connect_to_webos_tv env config.ip
  match c.client with
  | none =>
    if pyIn "Accept prompt" c.message then
      ⟨config.name, config.ip, TVState.unknown, none, c.message⟩
    else
      ⟨config.name, config.ip, TVState.unreachable, none, "Could not connect: " ++ c.message⟩
  | some _ =>
    ⟨config.name, config.ip, TVState.awake, none, "Connected"⟩

/-- The Python truth test `if not config.mac`: `None` and the empty string are
both falsy. -/
def macFalsy : Option String → Bool
  | none => true
  | some s => s.isEmpty

/-- `webos_controller.turn_on_single_tv`: without a usable `mac` fail
immediately (before any transport call); a successful connect means the device
is already on, `SKIPPED`; a pending pairing prompt is reported verbatim; else
Wake-on-LAN decides between `FAILED`/`ASLEEP` and `SUCCESS`/`AWAKE`. -/
def turn_on_single_tv (env : WebosEnv) (config : TVConfig) : TVStatus :=
  if macFalsy config.mac then
    ⟨config.name, config.ip, TVState.unknown, some ActionResult.failed,
      "No MAC address configured for Wake-on-LAN"⟩
  else
    let c := connect_to_webos_tv env config.ip
    match c.client with
    | some _ =>
      ⟨config.name, config.ip, TVState.awake, some ActionResult.skipped, "Already on"⟩
    | none =>
      if pyIn "Accept prompt" c.message then
        ⟨config.name, config.ip, TVState.unknown, some ActionResult.failed, c.message⟩
      else if !send_wol_packet env (config.mac.getD "") then
        ⟨config.name, config.ip, TVState.asleep, some ActionResult.failed,
          "Wake-on-LAN packet failed to send"⟩
      else
        ⟨config.name, config.ip, TVState.awake, some ActionResult.success,
          "Wake-on-LAN packet sent"⟩

/-- `webos_controller.turn_off_single_tv`: a pending pairing prompt is reported
verbatim; any other failed connect is treated as the device already being off
(`ASLEEP`/`SKIPPED`); with a live client `SystemControl.power_off` decides
between `FAILED`/`AWAKE` and `SUCCESS`/`ASLEEP`. -/
def turn_off_single_tv (env : WebosEnv) (config : TVConfig) : TVStatus :=
  let c := connect_to_webos_tv env config.ip
  match c.client with
  | none =>
    if pyIn "Accept prompt" c.message then
      ⟨config.name, config.ip, TVState.unknown, some ActionResult.failed, c.message⟩
    else
      ⟨config.name, config.ip, TVState.asleep, some ActionResult.skipped,
        "Already off or unreachable"⟩
  | some _ =>
    match env.power_off config.ip with
    | some errMsg =>
      ⟨config.name, config.ip, TVState.awake, some ActionResult.failed,
        "Power off failed: " ++ errMsg⟩
    | none =>
      ⟨config.name, config.ip, TVState.asleep, some ActionResult.success, "Turned off"⟩

end Webos

/-! ## tv_service.py (action resolver and batch dispatcher) -/

/-- All collaborator oracles of one run. -/
structure Env where
  adb : AdbEnv
  webos : WebosEnv

namespace TvService

/-- `tv_service.check_single_tv(config)`: the webos branch calls
`webos_controller.check_single_tv(config)` (arity matches).  The other branch
calls `adb_controller.check_single_tv(config)` although that function requires
two positional arguments `(name, ip)`; Python raises
`TypeError("check_single_tv() missing 1 required positional argument: \x27ip\x27")`
before the callee body runs, so the branch is modelled as raising with exactly
that message. -/
def check_single_tv (env : Env) (config : TVConfig) : Except String TVStatus :=
  if config.protocol == "webos" then
    Except.ok (Webos.check_single_tv env.webos config)
  else
    Except.error "check_single_tv() missing 1 required positional argument: \x27ip\x27"

/-- `tv_service.turn_on_single_tv(config)`: same shape as
`TvService.check_single_tv`; the adb branch raises the corresponding
`TypeError`. -/
def turn_on_single_tv (env : Env) (config : TVConfig) : Except String TVStatus :=
  if config.protocol == "webos" then
    Except.ok (Webos.turn_on_single_tv env.webos config)
  else
    Except.error "turn_on_single_tv() missing 1 required positional argument: \x27ip\x27"

/-- `tv_service.turn_off_single_tv(config)`: same shape as
`TvService.check_single_tv`; the adb branch raises the corresponding
`TypeError`. -/
def turn_off_single_tv (env : Env) (config : TVConfig) : Except String TVStatus :=
  if config.protocol == "webos" then
    Except.ok (Webos.turn_off_single_tv env.webos config)
  else
    Except.error "turn_off_single_tv() missing 1 required positional argument: \x27ip\x27"

/-- `tv_service.get_action_function`: `"on"` and `"off"` pick the two power
actions, every other string falls through to the check action. -/
def get_action_function (env : Env) (action : String) : TVConfig → Except String TVStatus :=
  if action == "on" then turn_on_single_tv env
  else if action == "off" then turn_off_single_tv env
  else check_single_tv env

/-- One iteration of the dispatcher loop body of
`tv_service.execute_on_multiple_tvs`: `future.result()` re-raises whatever the
resolution raised, the `except Exception` arm converts it into the
`{UNREACHABLE, FAILED, "Error: <detail>"}` record for that device, built from
the `config` remembered in `future_to_tv`. -/
def resolveSafe (env : Env) (action : String) (config : TVConfig) : TVStatus :=
  match get_action_function env action config with
  | Except.ok status => status
  | Except.error e =>
    ⟨config.name, config.ip, TVState.unreachable, some ActionResult.failed, "Error: " ++ e⟩

/-- `tv_service.execute_on_multiple_tvs`: one future per list element
(`executor.submit` returns a fresh future even for duplicate configs, so
`future_to_tv` has one entry per element), and `as_completed` yields the
futures in completion order — some permutation of the submitted list, decided
by the scheduler.  The dispatcher is modelled as a function of that completion
order: theorems quantify over every permutation `completionOrder` of the
submitted list.  Each iteration appends exactly one `TVStatus` (the resolution
result or the exception fallback of `resolveSafe`).  The optional
`on_tv_complete` callback receives each status once in the same order and does
not affect the returned list; it is not modelled.  `max_workers` is forwarded
to `ThreadPoolExecutor` and bounds simultaneity only; it cannot change the
value-level result and does not appear in the model. -/
def execute_on_multiple_tvs (env : Env) (completionOrder : List TVConfig)
    (action : String) : List TVStatus :=
  completionOrder.map (resolveSafe env action)

end TvService

/-! ## Device identity keys and key preservation

Every branch of every resolution builds its `TVStatus` from the `name`/`ip` of
the very device being resolved, so the name/ip pair of each result identifies
its device. -/

/-- Identity of a device: its name/address pair. -/
def configKey (c : TVConfig) : String × String := (c.name, c.ip)

/-- Identity carried by a result: its name/address pair. -/
def statusKey (s : TVStatus) : String × String := (s.name, s.ip)

theorem statusKey_webos_check (env : WebosEnv) (config : TVConfig) :
    statusKey (Webos.check_single_tv env config) = configKey config := by
  unfold Webos.check_single_tv
  generalize Webos.connect_to_webos_tv env config.ip = c
  rcases c with ⟨_ | u, msg, sv⟩
  · dsimp only
    split <;> rfl
  · rfl

theorem statusKey_webos_turn_on (env : WebosEnv) (config : TVConfig) :
    statusKey (Webos.turn_on_single_tv env config) = configKey config := by
  unfold Webos.turn_on_single_tv
  split
  · rfl
  · generalize Webos.connect_to_webos_tv env config.ip = c
    rcases c with ⟨_ | u, msg, sv⟩
    · dsimp only
      split
      · rfl
      · split <;> rfl
    · rfl

theorem statusKey_webos_turn_off (env : WebosEnv) (config : TVConfig) :
    statusKey (Webos.turn_off_single_tv env config) = configKey config := by
  unfold Webos.turn_off_single_tv
  generalize Webos.connect_to_webos_tv env config.ip = c
  rcases c with ⟨_ | u, msg, sv⟩
  · dsimp only
    split <;> rfl
  · dsimp only
    split <;> rfl

/-- `bytes.fromhex` consumes exactly two hex digits per produced byte. -/
theorem bytesFromHex_length : ∀ (l : List Char) (bs : List Nat),
    Webos.bytesFromHex l = some bs → 2 * bs.length = l.length
  | [], bs, h => by
    simp [Webos.bytesFromHex] at h
    subst h
    rfl
  | [c], bs, h => by
    simp [Webos.bytesFromHex] at h
  | c1 :: c2 :: rest, bs, h => by
    unfold Webos.bytesFromHex at h
    rcases h1 : Webos.hexDigitVal c1 with _ | hi <;> rw [h1] at h
    · simp at h
    rcases h2 : Webos.hexDigitVal c2 with _ | lo <;> rw [h2] at h
    · simp at h
    rcases h3 : Webos.bytesFromHex rest with _ | tail <;> rw [h3] at h
    · simp at h
    have ih := bytesFromHex_length rest tail h3
    cases h
    simp only [List.length_cons]
    omega

theorem statusKey_resolveSafe (env : Env) (action : String) (config : TVConfig) :
    statusKey (TvService.resolveSafe env action config) = configKey config := by
  unfold TvService.resolveSafe
  cases hr : TvService.get_action_function env action config with
  | error e => rfl
  | ok status =>
    unfold TvService.get_action_function at hr
    split at hr
    · unfold TvService.turn_on_single_tv at hr
      split at hr
      · cases hr
        exact statusKey_webos_turn_on env.webos config
      · cases hr
    · split at hr
      · unfold TvService.turn_off_single_tv at hr
        split at hr
        · cases hr
          exact statusKey_webos_turn_off env.webos config
        · cases hr
      · unfold TvService.check_single_tv at hr
        split at hr
        · cases hr
          exact statusKey_webos_check env.webos config
        · cases hr

/-! ## Concrete collaborator environments and devices

Closed instantiations of the oracle environments, used to evaluate the claim
theorems on concrete inputs. -/

/-- An adb transport for which every command succeeds and a device that is
awake: connecting answers `connected ...`, the power query reports
`mWakefulness=Awake`, the toggle keyevent succeeds. -/
def awakeAdbEnv : AdbEnv :=
  ⟨fun args _ =>
    if pyIn "dumpsys" (String.intercalate " " args) then (true, "mWakefulness=Awake")
    else (true, "connected to 10.0.0.5:5555")⟩

/-- An adb transport for a device that is asleep and toggles successfully. -/
def asleepAdbEnv : AdbEnv :=
  ⟨fun args _ =>
    if pyIn "dumpsys" (String.intercalate " " args) then (true, "mWakefulness=Asleep")
    else (true, "connected to 10.0.0.5:5555")⟩

/-- An adb transport for a device that is asleep but whose toggle keyevent
fails. -/
def asleepToggleFailAdbEnv : AdbEnv :=
  ⟨fun args _ =>
    if pyIn "dumpsys" (String.intercalate " " args) then (true, "mWakefulness=Asleep")
    else if pyIn "keyevent" (String.intercalate " " args) then (false, "toggle error")
    else (true, "connected to 10.0.0.5:5555")⟩

/-- An adb transport for which nothing answers: every command fails. -/
def deadAdbEnv : AdbEnv := ⟨fun _ _ => (false, "no route to host")⟩

/-- An adb transport that accepts the connect handshake but fails every later
shell command (power query and toggle). -/
def flakyAdbEnv : AdbEnv :=
  ⟨fun args _ =>
    if pyIn "dumpsys" (String.intercalate " " args) then (false, "device offline")
    else (true, "connected to 10.0.0.5:5555")⟩

/-- A paired transport that registers at once; WOL sends and power-off
succeed. -/
def demoWebosEnv : WebosEnv :=
  ⟨fun _ => RegisterOutcome.registered, fun _ => true, fun _ => none⟩

/-- A paired transport whose pairing handshake reports `PROMPTED`. -/
def promptedWebosEnv : WebosEnv :=
  ⟨fun _ => RegisterOutcome.prompted, fun _ => true, fun _ => none⟩

/-- A paired transport whose connect raises (`connection refused`); the WOL
broadcast itself succeeds. -/
def refusedWebosEnv : WebosEnv :=
  ⟨fun _ => RegisterOutcome.exc "connection refused", fun _ => true, fun _ => none⟩

/-- A paired transport whose connect raises and whose WOL broadcast also fails
locally. -/
def refusedNoWolWebosEnv : WebosEnv :=
  ⟨fun _ => RegisterOutcome.exc "connection refused", fun _ => false, fun _ => none⟩

/-- A paired transport with a live session whose `power_off` call raises. -/
def powerOffFailWebosEnv : WebosEnv :=
  ⟨fun _ => RegisterOutcome.registered, fun _ => true, fun _ => some "timed out"⟩

/-- Environment with every oracle answering successfully. -/
def demoEnv : Env := ⟨awakeAdbEnv, demoWebosEnv⟩

/-- A bridge-protocol device. -/
def lobbyTV : TVConfig := ⟨"Lobby", "10.0.0.5", "adb", none⟩

/-- A paired-protocol device with a hardware address. -/
def patioTV : TVConfig := ⟨"Patio", "10.0.0.9", "webos", some "AA:BB:CC:DD:EE:FF"⟩

/-- A paired-protocol device without a hardware address. -/
def atriumTV : TVConfig := ⟨"Atrium", "10.0.0.7", "webos", none⟩

/-! ## The claims -/

/-- The message of the `TypeError` raised when `tv_service` passes a single
`TVConfig` to the two-argument `adb_controller` resolution selected for
`action`. -/
def typeErrorMsg (action : String) : String :=
  if action == "on" then
    "turn_on_single_tv() missing 1 required positional argument: \x27ip\x27"
  else if action == "off" then
    "turn_off_single_tv() missing 1 required positional argument: \x27ip\x27"
  else
    "check_single_tv() missing 1 required positional argument: \x27ip\x27"

/-- For a non-webos device every service-layer resolution raises the arity
`TypeError` of the selected action. -/
theorem get_action_function_adb (env : Env) (action : String) (config : TVConfig)
    (hp : (config.protocol == "webos") = false) :
    TvService.get_action_function env action config = Except.error (typeErrorMsg action) := by
  unfold TvService.get_action_function typeErrorMsg
  split
  · unfold TvService.turn_on_single_tv
    simp [hp]
  · split
    · unfold TvService.turn_off_single_tv
      simp [hp]
    · unfold TvService.check_single_tv
      simp [hp]

/-- Number of occurrences of the name/ip pair `p` in a list of pairs. -/
def occurrences (p : String × String) (l : List (String × String)) : Nat :=
  (l.filter fun q => decide (q = p)).length

theorem occurrences_perm (p : String × String) {l₁ l₂ : List (String × String)}
    (h : l₁.Perm l₂) : occurrences p l₁ = occurrences p l₂ :=
  (h.filter _).length_eq

theorem occurrences_nodup (p : String × String) :
    ∀ l : List (String × String), l.Nodup → p ∈ l → occurrences p l = 1 := by
  intro l
  induction l with
  | nil =>
    intro _ hm
    cases hm
  | cons a t ih =>
    intro hnd hm
    rw [List.nodup_cons] at hnd
    rcases List.mem_cons.mp hm with rfl | hmt
    · unfold occurrences
      rw [List.filter_cons_of_pos (by simp)]
      have hz : t.filter (fun q => decide (q = p)) = [] :=
        List.filter_eq_nil_iff.mpr fun q hq => by
          simp only [decide_eq_true_eq]
          intro he
          exact hnd.1 (he ▸ hq)
      rw [hz]
      rfl
    · have hne : (a = p) = False := by
        simp only [eq_iff_iff, iff_false]
        intro he
        exact hnd.1 (he ▸ hmt)
      unfold occurrences
      rw [List.filter_cons_of_neg (by simp [hne])]
      exact ih hnd.2 hmt

/-- C1: for every dispatch call (any completion order of the device list, any
action), the returned list has one entry per dispatched device, the multiset of
name/ip pairs of the results is exactly the multiset of name/ip pairs of the
devices, and when the dispatched name/ip pairs are distinct each pair appears
exactly once in the results — no device is dropped, even when a resolution
raises (the raising branch of `resolveSafe` still emits the device record). -/
theorem C1_every_device_exactly_one_result (env : Env) (tvs completionOrder : List TVConfig)
    (action : String) (hperm : completionOrder.Perm tvs) :
    (TvService.execute_on_multiple_tvs env completionOrder action).length = tvs.length ∧
    ((TvService.execute_on_multiple_tvs env completionOrder action).map statusKey).Perm
      (tvs.map configKey) ∧
    ∀ p : String × String, (tvs.map configKey).Nodup → p ∈ tvs.map configKey →
      occurrences p ((TvService.execute_on_multiple_tvs env completionOrder action).map statusKey)
        = 1 := by
  have hmap : (TvService.execute_on_multiple_tvs env completionOrder action).map statusKey
      = completionOrder.map configKey := by
    unfold TvService.execute_on_multiple_tvs
    rw [List.map_map]
    exact List.map_congr_left fun c _ => statusKey_resolveSafe env action c
  have hperm2 : (completionOrder.map configKey).Perm (tvs.map configKey) := hperm.map _
  refine ⟨?_, ?_, ?_⟩
  · unfold TvService.execute_on_multiple_tvs
    rw [List.length_map]
    exact hperm.length_eq
  · rw [hmap]
    exact hperm2
  · intro p hnd hp
    rw [hmap, occurrences_perm p hperm2]
    exact occurrences_nodup p _ hnd hp

/-- C1 witness: a two-device batch (one device per protocol) dispatched in
submission order yields two results and the Lobby pair appears exactly once. -/
theorem C1_witness :
    (TvService.execute_on_multiple_tvs demoEnv [lobbyTV, patioTV] "on").length = 2 ∧
    occurrences ("Lobby", "10.0.0.5")
      ((TvService.execute_on_multiple_tvs demoEnv [lobbyTV, patioTV] "on").map statusKey)
        = 1 := by
  obtain ⟨h1, -, h3⟩ :=
    C1_every_device_exactly_one_result demoEnv [lobbyTV, patioTV] [lobbyTV, patioTV] "on"
      (List.Perm.refl _)
  exact ⟨h1, h3 ("Lobby", "10.0.0.5") (by decide) (by decide)⟩

/-- C2: when the resolution of the device at position `i` of the completion
order raises `e`, the dispatcher catches it and emits for that device alone the
record `{UNREACHABLE, FAILED, "Error: <detail>"}`; every position of the result
list (siblings included) still holds exactly the resolution of its own device,
the list keeps full length, and the dispatch call itself is a total function —
it never fails as a whole. -/
theorem C2_fault_isolated_per_device (env : Env) (completionOrder : List TVConfig)
    (action : String) (i : Nat) (config : TVConfig) (e : String)
    (hc : completionOrder[i]? = some config)
    (he : TvService.get_action_function env action config = Except.error e) :
    (TvService.execute_on_multiple_tvs env completionOrder action)[i]? =
      some ⟨config.name, config.ip, TVState.unreachable, some ActionResult.failed,
        "Error: " ++ e⟩ ∧
    (TvService.execute_on_multiple_tvs env completionOrder action).length =
      completionOrder.length ∧
    ∀ (j : Nat) (other : TVConfig), completionOrder[j]? = some other →
      (TvService.execute_on_multiple_tvs env completionOrder action)[j]? =
        some (TvService.resolveSafe env action other) := by
  refine ⟨?_, by simp [TvService.execute_on_multiple_tvs], ?_⟩
  · unfold TvService.execute_on_multiple_tvs
    rw [List.getElem?_map, hc]
    simp [TvService.resolveSafe, he]
  · intro j other hj
    unfold TvService.execute_on_multiple_tvs
    rw [List.getElem?_map, hj]
    rfl

/-- C2 witness: in the demo batch, the bridge device at position 0 raises the
arity `TypeError` and the dispatcher converts it into the error record. -/
theorem C2_witness :
    (TvService.execute_on_multiple_tvs demoEnv [lobbyTV, patioTV] "on")[0]? =
      some ⟨"Lobby", "10.0.0.5", TVState.unreachable, some ActionResult.failed,
        "Error: " ++ typeErrorMsg "on"⟩ :=
  (C2_fault_isolated_per_device demoEnv [lobbyTV, patioTV] "on" 0 lobbyTV
    (typeErrorMsg "on") rfl rfl).1

/-- C3: for every device whose `protocol` is `"adb"` and every action, the
service-layer wrapper passes one `TVConfig` argument to the two-argument
`adb_controller` function, so the resolution raises the arity `TypeError` and
the dispatcher fault path yields `{UNREACHABLE, FAILED, "Error: <detail>"}` —
the device can never obtain `SUCCESS`, `SKIPPED`, or a queried power state
through the service layer. -/
theorem C3_adb_protocol_always_faults (env : Env) (action : String) (config : TVConfig)
    (h : config.protocol = "adb") :
    TvService.get_action_function env action config = Except.error (typeErrorMsg action) ∧
    TvService.resolveSafe env action config =
      ⟨config.name, config.ip, TVState.unreachable, some ActionResult.failed,
        "Error: " ++ typeErrorMsg action⟩ ∧
    (TvService.resolveSafe env action config).state = TVState.unreachable ∧
    (TvService.resolveSafe env action config).action_result = some ActionResult.failed := by
  have hp : (config.protocol == "webos") = false := by rw [h]; rfl
  have hg := get_action_function_adb env action config hp
  have h2 : TvService.resolveSafe env action config =
      ⟨config.name, config.ip, TVState.unreachable, some ActionResult.failed,
        "Error: " ++ typeErrorMsg action⟩ := by
    unfold TvService.resolveSafe
    rw [hg]
  exact ⟨hg, h2, by rw [h2], by rw [h2]⟩

/-- C3 witness: the concrete bridge device resolved with the check action. -/
theorem C3_witness :
    TvService.resolveSafe demoEnv "check" lobbyTV =
      ⟨"Lobby", "10.0.0.5", TVState.unreachable, some ActionResult.failed,
        "Error: " ++ typeErrorMsg "check"⟩ :=
  (C3_adb_protocol_always_faults demoEnv "check" lobbyTV rfl).2.1

/-- C4: bridge-protocol turn-on.  Connect failure gives
`{UNREACHABLE, FAILED, "Could not connect: <detail>"}`; a queried state of
`AWAKE` gives `{AWAKE, SKIPPED, "Already on"}`; a queried state of
`UNREACHABLE` gives `{UNREACHABLE, FAILED, "Could not read power state"}`;
otherwise the toggle is sent — failure gives
`{currentState, FAILED, "Toggle failed: <detail>"}`, success gives
`{AWAKE, SUCCESS, "Turned on"}`. -/
theorem C4_bridge_turn_on (env : AdbEnv) (name ip : String) :
    ((Adb.connect_to_tv env ip).1 = false →
      Adb.turn_on_single_tv env name ip =
        ⟨name, ip, TVState.unreachable, some ActionResult.failed,
          "Could not connect: " ++ (Adb.connect_to_tv env ip).2⟩) ∧
    ((Adb.connect_to_tv env ip).1 = true →
      Adb.get_tv_power_state env ip = TVState.awake →
      Adb.turn_on_single_tv env name ip =
        ⟨name, ip, TVState.awake, some ActionResult.skipped, "Already on"⟩) ∧
    ((Adb.connect_to_tv env ip).1 = true →
      Adb.get_tv_power_state env ip = TVState.unreachable →
      Adb.turn_on_single_tv env name ip =
        ⟨name, ip, TVState.unreachable, some ActionResult.failed,
          "Could not read power state"⟩) ∧
    (∀ st : TVState, (Adb.connect_to_tv env ip).1 = true →
      Adb.get_tv_power_state env ip = st → st ≠ TVState.awake → st ≠ TVState.unreachable →
      (Adb.send_power_toggle env ip).1 = false →
      Adb.turn_on_single_tv env name ip =
        ⟨name, ip, st, some ActionResult.failed,
          "Toggle failed: " ++ (Adb.send_power_toggle env ip).2⟩) ∧
    (∀ st : TVState, (Adb.connect_to_tv env ip).1 = true →
      Adb.get_tv_power_state env ip = st → st ≠ TVState.awake → st ≠ TVState.unreachable →
      (Adb.send_power_toggle env ip).1 = true →
      Adb.turn_on_single_tv env name ip =
        ⟨name, ip, TVState.awake, some ActionResult.success, "Turned on"⟩) := by
  refine ⟨fun hc => ?_, fun hc hs => ?_, fun hc hs => ?_,
    fun st hc hs h1 h2 ht => ?_, fun st hc hs h1 h2 ht => ?_⟩
  · simp [Adb.turn_on_single_tv, hc]
  · simp [Adb.turn_on_single_tv, hc, hs]
  · simp [Adb.turn_on_single_tv, hc, hs]
  · simp [Adb.turn_on_single_tv, hc, hs, h1, h2, ht]
  · simp [Adb.turn_on_single_tv, hc, hs, h1, h2, ht]

/-- C4 witness: one concrete transport per branch of the turn-on state
machine. -/
theorem C4_witness :
    Adb.turn_on_single_tv deadAdbEnv "Lobby" "10.0.0.5" =
      ⟨"Lobby", "10.0.0.5", TVState.unreachable, some ActionResult.failed,
        "Could not connect: " ++ (Adb.connect_to_tv deadAdbEnv "10.0.0.5").2⟩ ∧
    Adb.turn_on_single_tv awakeAdbEnv "Lobby" "10.0.0.5" =
      ⟨"Lobby", "10.0.0.5", TVState.awake, some ActionResult.skipped, "Already on"⟩ ∧
    Adb.turn_on_single_tv flakyAdbEnv "Lobby" "10.0.0.5" =
      ⟨"Lobby", "10.0.0.5", TVState.unreachable, some ActionResult.failed,
        "Could not read power state"⟩ ∧
    Adb.turn_on_single_tv asleepToggleFailAdbEnv "Lobby" "10.0.0.5" =
      ⟨"Lobby", "10.0.0.5", TVState.asleep, some ActionResult.failed,
        "Toggle failed: " ++ (Adb.send_power_toggle asleepToggleFailAdbEnv "10.0.0.5").2⟩ ∧
    Adb.turn_on_single_tv asleepAdbEnv "Lobby" "10.0.0.5" =
      ⟨"Lobby", "10.0.0.5", TVState.awake, some ActionResult.success, "Turned on"⟩ :=
  ⟨(C4_bridge_turn_on deadAdbEnv "Lobby" "10.0.0.5").1 (by decide),
   (C4_bridge_turn_on awakeAdbEnv "Lobby" "10.0.0.5").2.1 (by decide) (by decide),
   (C4_bridge_turn_on flakyAdbEnv "Lobby" "10.0.0.5").2.2.1 (by decide) (by decide),
   (C4_bridge_turn_on asleepToggleFailAdbEnv "Lobby" "10.0.0.5").2.2.2.1 TVState.asleep
     (by decide) (by decide) (by decide) (by decide) (by decide),
   (C4_bridge_turn_on asleepAdbEnv "Lobby" "10.0.0.5").2.2.2.2 TVState.asleep
     (by decide) (by decide) (by decide) (by decide) (by decide)⟩

/-- C5 counterexample: the claim asserts that for either protocol a turn-off
connect failure yields `{UNREACHABLE, FAILED, "Could not connect: <detail>"}`
and that apart from the `ASLEEP` short-circuit the power-off control is always
invoked and mapped to `SUCCESS`/`FAILED`.  Both parts fail on the code: a
paired device whose connect raises `connection refused` resolves to
`{ASLEEP, SKIPPED, "Already off or unreachable"}`, and a bridge device whose
power state cannot be read returns
`{UNREACHABLE, FAILED, "Could not read power state"}` without toggling even
though the toggle command would have succeeded. -/
theorem C5_counterexample :
    Webos.turn_off_single_tv refusedWebosEnv patioTV =
      ⟨"Patio", "10.0.0.9", TVState.asleep, some ActionResult.skipped,
        "Already off or unreachable"⟩ ∧
    (Webos.turn_off_single_tv refusedWebosEnv patioTV).state ≠ TVState.unreachable ∧
    (Webos.turn_off_single_tv refusedWebosEnv patioTV).action_result
      ≠ some ActionResult.failed ∧
    Adb.turn_off_single_tv flakyAdbEnv "Lobby" "10.0.0.5" =
      ⟨"Lobby", "10.0.0.5", TVState.unreachable, some ActionResult.failed,
        "Could not read power state"⟩ ∧
    (Adb.send_power_toggle flakyAdbEnv "10.0.0.5").1 = true ∧
    (Adb.turn_off_single_tv flakyAdbEnv "Lobby" "10.0.0.5").action_result
      ≠ some ActionResult.success := by
  decide

/-- C5 amended: bridge-protocol turn-off is symmetric to turn-on, including
the guard that an unreadable power state fails without toggling; for the
paired protocol a connect failure that is not a pairing prompt is treated as
the device already being off (`{ASLEEP, SKIPPED, "Already off or
unreachable"}`), a pairing prompt is reported verbatim as
`{UNKNOWN, FAILED, <message>}`, and with a live session the dedicated
power-off call maps to `{ASLEEP, SUCCESS, "Turned off"}` on success and
`{AWAKE, FAILED, "Power off failed: <detail>"}` on failure. -/
theorem C5_amended_turn_off (env : AdbEnv) (wenv : WebosEnv) (name ip : String)
    (config : TVConfig) :
    ((Adb.connect_to_tv env ip).1 = false →
      Adb.turn_off_single_tv env name ip =
        ⟨name, ip, TVState.unreachable, some ActionResult.failed,
          "Could not connect: " ++ (Adb.connect_to_tv env ip).2⟩) ∧
    ((Adb.connect_to_tv env ip).1 = true →
      Adb.get_tv_power_state env ip = TVState.asleep →
      Adb.turn_off_single_tv env name ip =
        ⟨name, ip, TVState.asleep, some ActionResult.skipped, "Already off"⟩) ∧
    ((Adb.connect_to_tv env ip).1 = true →
      Adb.get_tv_power_state env ip = TVState.unreachable →
      Adb.turn_off_single_tv env name ip =
        ⟨name, ip, TVState.unreachable, some ActionResult.failed,
          "Could not read power state"⟩) ∧
    (∀ st : TVState, (Adb.connect_to_tv env ip).1 = true →
      Adb.get_tv_power_state env ip = st → st ≠ TVState.asleep → st ≠ TVState.unreachable →
      (Adb.send_power_toggle env ip).1 = false →
      Adb.turn_off_single_tv env name ip =
        ⟨name, ip, st, some ActionResult.failed,
          "Toggle failed: " ++ (Adb.send_power_toggle env ip).2⟩) ∧
    (∀ st : TVState, (Adb.connect_to_tv env ip).1 = true →
      Adb.get_tv_power_state env ip = st → st ≠ TVState.asleep → st ≠ TVState.unreachable →
      (Adb.send_power_toggle env ip).1 = true →
      Adb.turn_off_single_tv env name ip =
        ⟨name, ip, TVState.asleep, some ActionResult.success, "Turned off"⟩) ∧
    ((Webos.connect_to_webos_tv wenv config.ip).client = none →
      pyIn "Accept prompt" (Webos.connect_to_webos_tv wenv config.ip).message = false →
      Webos.turn_off_single_tv wenv config =
        ⟨config.name, config.ip, TVState.asleep, some ActionResult.skipped,
          "Already off or unreachable"⟩) ∧
    ((Webos.connect_to_webos_tv wenv config.ip).client = none →
      pyIn "Accept prompt" (Webos.connect_to_webos_tv wenv config.ip).message = true →
      Webos.turn_off_single_tv wenv config =
        ⟨config.name, config.ip, TVState.unknown, some ActionResult.failed,
          (Webos.connect_to_webos_tv wenv config.ip).message⟩) ∧
    ((Webos.connect_to_webos_tv wenv config.ip).client = some () →
      wenv.power_off config.ip = none →
      Webos.turn_off_single_tv wenv config =
        ⟨config.name, config.ip, TVState.asleep, some ActionResult.success, "Turned off"⟩) ∧
    (∀ m : String, (Webos.connect_to_webos_tv wenv config.ip).client = some () →
      wenv.power_off config.ip = some m →
      Webos.turn_off_single_tv wenv config =
        ⟨config.name, config.ip, TVState.awake, some ActionResult.failed,
          "Power off failed: " ++ m⟩) := by
  refine ⟨fun hc => ?_, fun hc hs => ?_, fun hc hs => ?_,
    fun st hc hs h1 h2 ht => ?_, fun st hc hs h1 h2 ht => ?_,
    fun hcl hmsg => ?_, fun hcl hmsg => ?_, fun hcl hpo => ?_, fun m hcl hpo => ?_⟩
  · simp [Adb.turn_off_single_tv, hc]
  · simp [Adb.turn_off_single_tv, hc, hs]
  · simp [Adb.turn_off_single_tv, hc, hs]
  · simp [Adb.turn_off_single_tv, hc, hs, h1, h2, ht]
  · simp [Adb.turn_off_single_tv, hc, hs, h1, h2, ht]
  · simp [Webos.turn_off_single_tv, hcl, hmsg]
  · simp [Webos.turn_off_single_tv, hcl, hmsg]
  · simp [Webos.turn_off_single_tv, hcl, hpo]
  · simp [Webos.turn_off_single_tv, hcl, hpo]

/-- C5 witness: concrete transports exercising the asleep short-circuit, the
successful bridge toggle-off, and both paired power-off outcomes. -/
theorem C5_witness :
    Adb.turn_off_single_tv asleepAdbEnv "Lobby" "10.0.0.5" =
      ⟨"Lobby", "10.0.0.5", TVState.asleep, some ActionResult.skipped, "Already off"⟩ ∧
    Adb.turn_off_single_tv awakeAdbEnv "Lobby" "10.0.0.5" =
      ⟨"Lobby", "10.0.0.5", TVState.asleep, some ActionResult.success, "Turned off"⟩ ∧
    Webos.turn_off_single_tv refusedWebosEnv patioTV =
      ⟨"Patio", "10.0.0.9", TVState.asleep, some ActionResult.skipped,
        "Already off or unreachable"⟩ ∧
    Webos.turn_off_single_tv demoWebosEnv patioTV =
      ⟨"Patio", "10.0.0.9", TVState.asleep, some ActionResult.success, "Turned off"⟩ ∧
    Webos.turn_off_single_tv powerOffFailWebosEnv patioTV =
      ⟨"Patio", "10.0.0.9", TVState.awake, some ActionResult.failed,
        "Power off failed: " ++ "timed out"⟩ :=
  ⟨(C5_amended_turn_off asleepAdbEnv demoWebosEnv "Lobby" "10.0.0.5" patioTV).2.1
     (by decide) (by decide),
   (C5_amended_turn_off awakeAdbEnv demoWebosEnv "Lobby" "10.0.0.5" patioTV).2.2.2.2.1
     TVState.awake (by decide) (by decide) (by decide) (by decide) (by decide),
   (C5_amended_turn_off awakeAdbEnv refusedWebosEnv "Lobby" "10.0.0.5" patioTV).2.2.2.2.2.1
     (by decide) (by decide),
   (C5_amended_turn_off awakeAdbEnv demoWebosEnv "Lobby" "10.0.0.5" patioTV).2.2.2.2.2.2.2.1
     (by decide) (by decide),
   (C5_amended_turn_off awakeAdbEnv powerOffFailWebosEnv "Lobby" "10.0.0.5" patioTV).2.2.2.2.2.2.2.2
     "timed out" (by decide) (by decide)⟩

/-- C6: paired-protocol turn-on.  Without a hardware address the result is
`{UNKNOWN, FAILED, "No MAC address configured for Wake-on-LAN"}` and no
collaborator is consulted (the result is the same under every transport
environment); with a hardware address, when the device is neither connected
(no live client) nor pairing-pending, Wake-on-LAN is attempted — a local send
failure gives `{ASLEEP, FAILED, ...}` and a completed send gives
`{AWAKE, SUCCESS, "Wake-on-LAN packet sent"}`. -/
theorem C6_paired_turn_on (env : WebosEnv) (config : TVConfig) :
    (config.mac = none →
      Webos.turn_on_single_tv env config =
        ⟨config.name, config.ip, TVState.unknown, some ActionResult.failed,
          "No MAC address configured for Wake-on-LAN"⟩ ∧
      ∀ env2 : WebosEnv, Webos.turn_on_single_tv env2 config =
        Webos.turn_on_single_tv env config) ∧
    (∀ mac : String, config.mac = some mac →
      Webos.macFalsy config.mac = false →
      (Webos.connect_to_webos_tv env config.ip).client = none →
      pyIn "Accept prompt" (Webos.connect_to_webos_tv env config.ip).message = false →
      (Webos.send_wol_packet env mac = false →
        Webos.turn_on_single_tv env config =
          ⟨config.name, config.ip, TVState.asleep, some ActionResult.failed,
            "Wake-on-LAN packet failed to send"⟩) ∧
      (Webos.send_wol_packet env mac = true →
        Webos.turn_on_single_tv env config =
          ⟨config.name, config.ip, TVState.awake, some ActionResult.success,
            "Wake-on-LAN packet sent"⟩)) := by
  refine ⟨fun hm => ⟨?_, fun env2 => ?_⟩, fun mac hm hf hcl hmsg => ⟨fun hw => ?_, fun hw => ?_⟩⟩
  · simp [Webos.turn_on_single_tv, hm, Webos.macFalsy]
  · simp [Webos.turn_on_single_tv, hm, Webos.macFalsy]
  · rw [hm] at hf
    simp [Webos.turn_on_single_tv, hm, hf, hcl, hmsg, hw]
  · rw [hm] at hf
    simp [Webos.turn_on_single_tv, hm, hf, hcl, hmsg, hw]

/-- C6 witness: the mac-less device fails identically under two different
transports without consulting them; the configured device exercises both WOL
outcomes. -/
theorem C6_witness :
    Webos.turn_on_single_tv demoWebosEnv atriumTV =
      ⟨"Atrium", "10.0.0.7", TVState.unknown, some ActionResult.failed,
        "No MAC address configured for Wake-on-LAN"⟩ ∧
    Webos.turn_on_single_tv refusedWebosEnv atriumTV =
      Webos.turn_on_single_tv demoWebosEnv atriumTV ∧
    Webos.turn_on_single_tv refusedNoWolWebosEnv patioTV =
      ⟨"Patio", "10.0.0.9", TVState.asleep, some ActionResult.failed,
        "Wake-on-LAN packet failed to send"⟩ ∧
    Webos.turn_on_single_tv refusedWebosEnv patioTV =
      ⟨"Patio", "10.0.0.9", TVState.awake, some ActionResult.success,
        "Wake-on-LAN packet sent"⟩ :=
  ⟨((C6_paired_turn_on demoWebosEnv atriumTV).1 rfl).1,
   ((C6_paired_turn_on demoWebosEnv atriumTV).1 rfl).2 refusedWebosEnv,
   ((C6_paired_turn_on refusedNoWolWebosEnv patioTV).2 "AA:BB:CC:DD:EE:FF" rfl (by decide)
      (by decide) (by decide)).1 (by decide),
   ((C6_paired_turn_on refusedWebosEnv patioTV).2 "AA:BB:CC:DD:EE:FF" rfl (by decide)
      (by decide) (by decide)).2 (by decide)⟩

/-- C7: when the pairing handshake reports `PROMPTED` during connect, the
connect result carries no client, the pending message `Accept prompt on TV`
verbatim, and the credential save flag (the `save_token_for_ip` call happens
inside `connect_to_webos_tv`, before it returns); every resolution then
reports state `UNKNOWN` — never `UNREACHABLE` — with the message preserved
verbatim (the turn-on resolution reaches its connect only when a hardware
address is configured). -/
theorem C7_pairing_prompt (env : WebosEnv) (config : TVConfig)
    (h : env.register config.ip = RegisterOutcome.prompted) :
    Webos.connect_to_webos_tv env config.ip = ⟨none, "Accept prompt on TV", true⟩ ∧
    Webos.check_single_tv env config =
      ⟨config.name, config.ip, TVState.unknown, none, "Accept prompt on TV"⟩ ∧
    Webos.turn_off_single_tv env config =
      ⟨config.name, config.ip, TVState.unknown, some ActionResult.failed,
        "Accept prompt on TV"⟩ ∧
    (Webos.macFalsy config.mac = false →
      Webos.turn_on_single_tv env config =
        ⟨config.name, config.ip, TVState.unknown, some ActionResult.failed,
          "Accept prompt on TV"⟩) := by
  have hconn : Webos.connect_to_webos_tv env config.ip =
      ⟨none, "Accept prompt on TV", true⟩ := by
    unfold Webos.connect_to_webos_tv
    rw [h]
  have hin : pyIn "Accept prompt" "Accept prompt on TV" = true := by decide
  refine ⟨hconn, ?_, ?_, fun hf => ?_⟩
  · simp [Webos.check_single_tv, hconn, hin]
  · simp [Webos.turn_off_single_tv, hconn, hin]
  · simp [Webos.turn_on_single_tv, hconn, hin, hf]

/-- C7 witness: the prompted transport on the configured paired device. -/
theorem C7_witness :
    Webos.connect_to_webos_tv promptedWebosEnv "10.0.0.9" =
      ⟨none, "Accept prompt on TV", true⟩ ∧
    Webos.check_single_tv promptedWebosEnv patioTV =
      ⟨"Patio", "10.0.0.9", TVState.unknown, none, "Accept prompt on TV"⟩ ∧
    Webos.turn_on_single_tv promptedWebosEnv patioTV =
      ⟨"Patio", "10.0.0.9", TVState.unknown, some ActionResult.failed,
        "Accept prompt on TV"⟩ := by
  obtain ⟨h1, h2, h3, h4⟩ := C7_pairing_prompt promptedWebosEnv patioTV rfl
  exact ⟨h1, h2, h4 (by decide)⟩

/-- C8: the pure query action.  For the bridge driver a connect failure gives
`{UNREACHABLE, outcome none, "Could not connect: <detail>"}` and a successful
connect reports the queried power state with `"Connected"`.  For the paired
driver a connect failure that is not the pairing-pending signal gives the same
unreachable record, and a successful (registered) connect reports the queried
state — which for this driver is `AWAKE`, a live registered session being its
only state probe — with `"Connected"`. -/
theorem C8_query_action (aenv : AdbEnv) (wenv : WebosEnv) (name ip : String)
    (config : TVConfig) :
    ((Adb.connect_to_tv aenv ip).1 = false →
      Adb.check_single_tv aenv name ip =
        ⟨name, ip, TVState.unreachable, none,
          "Could not connect: " ++ (Adb.connect_to_tv aenv ip).2⟩) ∧
    ((Adb.connect_to_tv aenv ip).1 = true →
      Adb.check_single_tv aenv name ip =
        ⟨name, ip, Adb.get_tv_power_state aenv ip, none, "Connected"⟩) ∧
    ((Webos.connect_to_webos_tv wenv config.ip).client = none →
      pyIn "Accept prompt" (Webos.connect_to_webos_tv wenv config.ip).message = false →
      Webos.check_single_tv wenv config =
        ⟨config.name, config.ip, TVState.unreachable, none,
          "Could not connect: " ++ (Webos.connect_to_webos_tv wenv config.ip).message⟩) ∧
    ((Webos.connect_to_webos_tv wenv config.ip).client = some () →
      Webos.check_single_tv wenv config =
        ⟨config.name, config.ip, TVState.awake, none, "Connected"⟩) := by
  refine ⟨fun hc => ?_, fun hc => ?_, fun hcl hmsg => ?_, fun hcl => ?_⟩
  · simp [Adb.check_single_tv, hc]
  · simp [Adb.check_single_tv, hc]
  · simp [Webos.check_single_tv, hcl, hmsg]
  · simp [Webos.check_single_tv, hcl]

/-- C8 witness: both drivers, failed and successful connects. -/
theorem C8_witness :
    Adb.check_single_tv deadAdbEnv "Lobby" "10.0.0.5" =
      ⟨"Lobby", "10.0.0.5", TVState.unreachable, none,
        "Could not connect: " ++ (Adb.connect_to_tv deadAdbEnv "10.0.0.5").2⟩ ∧
    Adb.check_single_tv awakeAdbEnv "Lobby" "10.0.0.5" =
      ⟨"Lobby", "10.0.0.5", Adb.get_tv_power_state awakeAdbEnv "10.0.0.5", none,
        "Connected"⟩ ∧
    Webos.check_single_tv refusedWebosEnv patioTV =
      ⟨"Patio", "10.0.0.9", TVState.unreachable, none,
        "Could not connect: " ++ (Webos.connect_to_webos_tv refusedWebosEnv "10.0.0.9").message⟩ ∧
    Webos.check_single_tv demoWebosEnv patioTV =
      ⟨"Patio", "10.0.0.9", TVState.awake, none, "Connected"⟩ :=
  ⟨(C8_query_action deadAdbEnv demoWebosEnv "Lobby" "10.0.0.5" patioTV).1 (by decide),
   (C8_query_action awakeAdbEnv demoWebosEnv "Lobby" "10.0.0.5" patioTV).2.1 (by decide),
   (C8_query_action awakeAdbEnv refusedWebosEnv "Lobby" "10.0.0.5" patioTV).2.2.1
     (by decide) (by decide),
   (C8_query_action awakeAdbEnv demoWebosEnv "Lobby" "10.0.0.5" patioTV).2.2.2 (by decide)⟩

/-- C9: Wake-on-LAN.  When the hardware address parses into bytes, the packet
handed to the broadcast socket is exactly 6 bytes of `0xFF` followed by those
bytes repeated 16 times, and the returned boolean is exactly the success of
that local send (the oracle models only the local socket operations — the
code never awaits or reads any reply, so a remote non-response cannot make it
return false); each parsed byte consumes exactly two hex digits, so a
12-hex-digit hardware address yields the 6-byte sequence; when local packet
construction fails (`bytes.fromhex` raises), the function returns false. -/
theorem C9_wol_magic_packet (env : WebosEnv) (mac : String) :
    (∀ bs : List Nat,
      Webos.bytesFromHex (Webos.stripMacSeparators mac).toList = some bs →
      Webos.send_wol_packet env mac =
        env.sendMagicPacket (List.replicate 6 255 ++ (List.replicate 16 bs).flatten) ∧
      2 * bs.length = (Webos.stripMacSeparators mac).toList.length) ∧
    (Webos.bytesFromHex (Webos.stripMacSeparators mac).toList = none →
      Webos.send_wol_packet env mac = false) := by
  refine ⟨fun bs h => ⟨?_, bytesFromHex_length _ _ h⟩, fun h => ?_⟩
  · unfold Webos.send_wol_packet
    rw [h]
  · unfold Webos.send_wol_packet
    rw [h]

/-- C9 witness: a standard colon-separated hardware address parses to 6 bytes
and broadcasts the 102-byte magic packet; a non-hex address returns false. -/
theorem C9_witness :
    Webos.send_wol_packet demoWebosEnv "AA:BB:CC:DD:EE:FF" =
      demoWebosEnv.sendMagicPacket
        (List.replicate 6 255 ++
          (List.replicate 16 ([0xAA, 0xBB, 0xCC, 0xDD, 0xEE, 0xFF] : List Nat)).flatten) ∧
    2 * ([0xAA, 0xBB, 0xCC, 0xDD, 0xEE, 0xFF] : List Nat).length =
      (Webos.stripMacSeparators "AA:BB:CC:DD:EE:FF").toList.length ∧
    Webos.send_wol_packet demoWebosEnv "zz" = false := by
  obtain ⟨h1, h2⟩ := (C9_wol_magic_packet demoWebosEnv "AA:BB:CC:DD:EE:FF").1
    [0xAA, 0xBB, 0xCC, 0xDD, 0xEE, 0xFF] (by decide)
  exact ⟨h1, h2, (C9_wol_magic_packet demoWebosEnv "zz").2 (by decide)⟩

end ChurchTV
